import Mathlib

/-!
Shallow embedding of src/queen.js (an Express HTTP server bridging OTP
requests to a WhatsApp messaging library) and proofs about its behavior.

The embedding covers:
* the JSON values that can appear in a request body and their JS truthiness;
* the digit-stripping normalization of the phone number
  (`number.replace(/[^0-9]/g, "")`, queen.js line 82);
* the `POST /send-otp` handler (queen.js lines 56-119), parametrized by the
  current connection handle, the request body fields, the outcome of the
  library send call, and the current timestamp string;
* the `GET /` health-check handler (queen.js lines 46-53);
* the connection-manager lifecycle of `connectToWA` (queen.js lines 122-191)
  as a labeled transition system over pending reconnect timers, live socket
  instances and the published global handle `sockInstance`.
-/

/-- A JSON value as it can arrive in `req.body.number` / `req.body.message`
(Express json body parsing); `absent` means the field is missing. -/
inductive JSVal where
  | absent
  | null
  | str (s : String)
  | num (n : Int)
  | jbool (b : Bool)
  | arr
  | obj
  deriving DecidableEq, Repr

/-- JavaScript truthiness, as tested by `if (!number || !message)`
(queen.js line 66). -/
def truthy : JSVal → Bool
  | .absent => false
  | .null => false
  | .str s => !(s == "")
  | .num n => !(n == 0)
  | .jbool b => b
  | .arr => true
  | .obj => true

/-- `message?.length` as used in the 400 payload (queen.js line 69): defined
for strings, otherwise undefined (modelled as `none`; non-string bodies are
not inspected by any claim). -/
def jsLength : JSVal → Option Nat
  | .str s => some s.length
  | _ => none

/-- The embedding of `number.replace(/[^0-9]/g, "")` (queen.js line 82) on a
string: keep exactly the characters 0-9. -/
def stripNonDigits (s : String) : String :=
  String.mk (s.data.filter Char.isDigit)

/-- `number.replace(...)` on an arbitrary JS value: on a string it strips the
non-digits; on any other value the property access yields no function and the
expression throws `TypeError: number.replace is not a function`. -/
def replaceNonDigits : JSVal → Except String String
  | .str s => .ok (stripNonDigits s)
  | _ => .error "number.replace is not a function"

/-- List-level check that the first list is an initial segment of the second
(characters compared with `==`). -/
def isPrefixL : List Char → List Char → Bool
  | [], _ => true
  | _ :: _, [] => false
  | a :: as, b :: bs => a == b && isPrefixL as bs

/-- Auxiliary scan for substring containment: does `needle` occur starting at
some position of the second list? -/
def containsSubAux (needle : List Char) : List Char → Bool
  | [] => isPrefixL needle []
  | c :: rest => isPrefixL needle (c :: rest) || containsSubAux needle rest

/-- JavaScript `hay.includes(needle)`: case-sensitive substring containment,
`true` for the empty needle. -/
def strIncludes (hay needle : String) : Bool :=
  containsSubAux needle.data hay.data

/-- The catch-block classification of a send error (queen.js lines 102-111):
substring-match the error message and produce the HTTP status code together
with the `details` text actually sent (`errorMessage`). -/
def classifyError (msg : String) : Nat × String :=
  if strIncludes msg "Not authorized" then
    (401, "WhatsApp not authenticated. Please scan QR code.")
  else if strIncludes msg "not registered" || strIncludes msg "invalid" then
    (400, "Invalid phone number or number not registered on WhatsApp")
  else
    (500, msg)

/-- Outcome of `sockInstance.sendMessage(jid, { text: message })`
(queen.js line 88): the promise either resolves or rejects with an error
carrying a message string. -/
inductive SendOutcome where
  | resolves
  | rejects (msg : String)
  deriving DecidableEq, Repr

/-- A recorded invocation of the library send operation: the JID address it
was given and the message value forwarded as the text. -/
structure SendCall where
  jid : String
  text : JSVal
  deriving DecidableEq, Repr

/-- The JSON body of a `/send-otp` response, one constructor per literal
object in the handler (queen.js lines 67-70, 75-78, 92-97, 113-117). -/
inductive RBody where
  | missing (number : JSVal) (messageLength : Option Nat)
  | notConnected
  | sent (toNum : String) (timestamp : String)
  | failed (details : String) (timestamp : String)
  deriving DecidableEq, Repr

/-- The `ok` field of a response body (present and `true` only on the
success body, queen.js line 93). -/
def RBody.okField : RBody → Option Bool
  | .sent _ _ => some true
  | _ => none

/-- The `to` field of a response body (queen.js line 95). -/
def RBody.toField : RBody → Option String
  | .sent t _ => some t
  | _ => none

/-- The `details` field of a response body (queen.js line 115). -/
def RBody.detailsField : RBody → Option String
  | .failed d _ => some d
  | _ => none

/-- The `timestamp` field of a response body (queen.js lines 96 and 116;
the 400 and 503 bodies carry none). -/
def RBody.timestampField : RBody → Option String
  | .sent _ ts => some ts
  | .failed _ ts => some ts
  | _ => none

/-- An HTTP response: status code plus JSON body. `res.json(...)` without an
explicit status sends 200. -/
structure HttpResponse where
  status : Nat
  body : RBody
  deriving DecidableEq, Repr

/-- The `POST /send-otp` handler (queen.js lines 56-119).

Parameters: whether the global `sockInstance` is currently non-null, the two
body fields, the outcome the library send call would have, and the current
`new Date().toISOString()` string. Returns the HTTP response together with
the send invocation that was issued, if any.

Mirrors the source control flow: the falsy-field 400 check, the
null-`sockInstance` 503 check, the digit-strip (which throws on non-string
values and lands in the catch block), the send call, and the catch block
classifying any thrown error. -/
def sendOtpHandler (sockInstance : Bool) (number message : JSVal)
    (send : SendOutcome) (now : String) : HttpResponse × Option SendCall :=
  if !truthy number || !truthy message then
    (⟨400, .missing number (jsLength message)⟩, none)
  else if !sockInstance then
    (⟨503, .notConnected⟩, none)
  else
    match replaceNonDigits number with
    | .error m =>
        let c := classifyError m
        (⟨c.1, .failed c.2 now⟩, none)
    | .ok cleanNumber =>
        let jid := cleanNumber ++ "@s.whatsapp.net"
        match send with
        | .resolves => (⟨200, .sent cleanNumber now⟩, some ⟨jid, message⟩)
        | .rejects m =>
            let c := classifyError m
            (⟨c.1, .failed c.2 now⟩, some ⟨jid, message⟩)

/-- The JSON body of the health-check response (queen.js lines 47-52). -/
structure HealthBody where
  status : String
  service : String
  whatsapp : String
  timestamp : String
  deriving DecidableEq, Repr

/-- The `GET /` handler (queen.js lines 46-53): status code and body as a
function of whether `sockInstance` is non-null and of the current time. -/
def healthHandler (sockInstance : Bool) (now : String) : Nat × HealthBody :=
  (200, ⟨"online", "XPROVerce WhatsApp OTP Server",
         if sockInstance then "connected" else "connecting", now⟩)

/-- State of the connection manager (queen.js lines 122-191):
`pending` holds the delays (ms) of the `setTimeout(connectToWA, _)` timers
currently pending; `liveConns` counts sockets created by `makeWASocket` whose
connection has not yet emitted a close signal; `sockSet` is whether the
global `sockInstance` is non-null. -/
structure WAState where
  pending : List Nat
  liveConns : Nat
  sockSet : Bool
  deriving DecidableEq, Repr

/-- Events of the connection-manager lifecycle. -/
inductive WAEvent where
  | timerOk
  | timerErr
  | connClose
  | connOpen
  deriving DecidableEq, Repr

/-- Labeled transitions of the connection manager, one per event in
`connectToWA` (queen.js lines 122-191):

* `timerOk`: a pending `connectToWA` timer fires and the body reaches
  `makeWASocket`, creating a live socket (lines 126-171);
* `timerErr`: a pending timer fires and the body throws before a socket
  exists; the catch block schedules `setTimeout(connectToWA, 10000)`
  (lines 173-177);
* `connClose`: a live socket emits `connection === "close"`; the handler only
  logs and schedules `setTimeout(connectToWA, 5000)` — it does not change
  `sockInstance` (lines 146-149) — and a closed socket emits no further
  close signal;
* `connOpen`: a live socket emits `connection === "open"` and the handler
  publishes it: `sockInstance = conn` (lines 150-153). -/
inductive WAStep : WAState → WAEvent → WAState → Prop where
  | timerOk : ∀ d rest live sock,
      WAStep ⟨d :: rest, live, sock⟩ .timerOk ⟨rest, live + 1, sock⟩
  | timerErr : ∀ d rest live sock,
      WAStep ⟨d :: rest, live, sock⟩ .timerErr ⟨rest ++ [10000], live, sock⟩
  | connClose : ∀ pend live sock,
      WAStep ⟨pend, live + 1, sock⟩ .connClose ⟨pend ++ [5000], live, sock⟩
  | connOpen : ∀ pend live sock,
      WAStep ⟨pend, live + 1, sock⟩ .connOpen ⟨pend, live + 1, true⟩

/-- A finite run of the connection manager through a list of events. -/
inductive Trace : WAState → List WAEvent → WAState → Prop where
  | nil : ∀ s, Trace s [] s
  | cons : ∀ s e t tr u, WAStep s e t → Trace t tr u → Trace s (e :: tr) u

/-- The state at process start: `app.listen` schedules
`setTimeout(() => connectToWA(), 1000)` (queen.js lines 181-190), no socket
exists and `sockInstance` is `null` (line 31). -/
def initState : WAState := ⟨[1000], 0, false⟩

/-- A state the connection manager can reach from process start. -/
def Reachable (s : WAState) : Prop := ∃ tr, Trace initState tr s

/-- Each transition preserves the count of pending timers plus live sockets. -/
theorem waStep_units {s t : WAState} {e : WAEvent} (h : WAStep s e t) :
    t.pending.length + t.liveConns = s.pending.length + s.liveConns := by
  cases h <;> simp +arith [List.length_append]

/-- A trace preserves the count of pending timers plus live sockets. -/
theorem trace_units {s : WAState} {tr : List WAEvent} {t : WAState}
    (h : Trace s tr t) :
    t.pending.length + t.liveConns = s.pending.length + s.liveConns := by
  induction h with
  | nil s => rfl
  | cons s e t tr u hstep htr ih => rw [ih, waStep_units hstep]

/-- In every reachable state there is exactly one pending timer or live
socket in total. -/
theorem reachable_units {s : WAState} (h : Reachable s) :
    s.pending.length + s.liveConns = 1 := by
  obtain ⟨tr, htr⟩ := h
  have := trace_units htr
  simpa [initState] using this

/-- No transition ever resets the published handle: once `sockInstance` is
set it stays set (the close handler does not clear it). -/
theorem waStep_sock_mono {s t : WAState} {e : WAEvent} (h : WAStep s e t)
    (hs : s.sockSet = true) : t.sockSet = true := by
  cases h <;> simp_all

/-- `sockSet` is monotone along traces. -/
theorem trace_sock_mono {s : WAState} {tr : List WAEvent} {t : WAState}
    (h : Trace s tr t) (hs : s.sockSet = true) : t.sockSet = true := by
  induction h with
  | nil s => exact hs
  | cons s e t tr u hstep htr ih => exact ih (waStep_sock_mono hstep hs)

/-- A trace containing no open event leaves `sockSet` unchanged. -/
theorem trace_no_open_sock {s : WAState} {tr : List WAEvent} {t : WAState}
    (h : Trace s tr t) (hno : WAEvent.connOpen ∉ tr) :
    t.sockSet = s.sockSet := by
  induction h with
  | nil s => rfl
  | cons s e t tr u hstep htr ih =>
      have he : e ≠ WAEvent.connOpen := fun hc => hno (by simp [hc])
      have htl : WAEvent.connOpen ∉ tr := fun hc => hno (by simp [hc])
      rw [ih htl]
      cases hstep with
      | timerOk d rest live sock => rfl
      | timerErr d rest live sock => rfl
      | connClose pend live sock => rfl
      | connOpen pend live sock => exact absurd rfl he

/-- A trace containing an open event ends with `sockSet` true. -/
theorem trace_open_sock {s : WAState} {tr : List WAEvent} {t : WAState}
    (h : Trace s tr t) (hin : WAEvent.connOpen ∈ tr) : t.sockSet = true := by
  induction h with
  | nil s => simp at hin
  | cons s e t tr u hstep htr ih =>
      rcases List.mem_cons.mp hin with he | htl
      · cases hstep with
        | timerOk d rest live sock => simp at he
        | timerErr d rest live sock => simp at he
        | connClose pend live sock => simp at he
        | connOpen pend live sock => exact trace_sock_mono htr rfl
      · exact ih htl

/-- `classifyError` on the TypeError message produced by calling `.replace`
on a non-string `number`: none of the three substrings occurs, so the error
falls through to the generic 500 classification. -/
theorem classify_replace_error :
    classifyError "number.replace is not a function"
      = (500, "number.replace is not a function") := by
  decide

/-- C3: for every valid send request with a string phone number, the JID
passed to the library send operation is the input with every non-digit
character removed followed by the suffix "@s.whatsapp.net"; in particular
"+1 (555) 123-4567" yields "15551234567@s.whatsapp.net". -/
theorem c3_jid_normalization (n m : String) (hn : n ≠ "") (hm : m ≠ "")
    (send : SendOutcome) (now : String) :
    ((sendOtpHandler true (.str n) (.str m) send now).2).map SendCall.jid =
      some (String.mk (n.data.filter Char.isDigit) ++ "@s.whatsapp.net")
    ∧ ((sendOtpHandler true (.str "+1 (555) 123-4567") (.str m) send now).2).map
        SendCall.jid = some "15551234567@s.whatsapp.net" := by
  constructor
  · cases send <;>
      simp [sendOtpHandler, truthy, hn, hm, replaceNonDigits, stripNonDigits]
  · cases send <;>
      simp [sendOtpHandler, truthy, hm, replaceNonDigits] <;> decide

/-- C3 witness at the concrete input from the claim. -/
theorem c3_jid_normalization_witness :
    ((sendOtpHandler true (.str "+1 (555) 123-4567") (.str "otp") .resolves
      "T").2).map SendCall.jid = some "15551234567@s.whatsapp.net" :=
  (c3_jid_normalization "+1 (555) 123-4567" "otp" (by decide) (by decide)
    .resolves "T").2

/-- C4: a request with `number` or `message` absent or empty gets the 400
response with the explanatory `missing` payload, and the send operation is
never invoked, in every connection state and for every send behavior. -/
theorem c4_missing_fields (number message : JSVal) (sock : Bool)
    (send : SendOutcome) (now : String)
    (h : number = .absent ∨ number = .str "" ∨
         message = .absent ∨ message = .str "") :
    (sendOtpHandler sock number message send now).1.status = 400
    ∧ (sendOtpHandler sock number message send now).1.body
        = .missing number (jsLength message)
    ∧ (sendOtpHandler sock number message send now).2 = none := by
  rcases h with h | h | h | h <;> subst h <;> simp [sendOtpHandler, truthy]

/-- C4 witness: a request with an absent number field. -/
theorem c4_missing_fields_witness :
    (sendOtpHandler true .absent (.str "otp") .resolves "T").1.status = 400
    ∧ (sendOtpHandler true .absent (.str "otp") .resolves "T").2 = none :=
  ⟨(c4_missing_fields .absent (.str "otp") true .resolves "T" (.inl rfl)).1,
   (c4_missing_fields .absent (.str "otp") true .resolves "T" (.inl rfl)).2.2⟩

/-- C5: when both fields are present (truthy) but no connection handle is
set, the response is 503 and no send is attempted, whatever the body values
and whatever the send behavior would have been. -/
theorem c5_no_connection_503 (number message : JSVal) (send : SendOutcome)
    (now : String) (hn : truthy number = true) (hm : truthy message = true) :
    (sendOtpHandler false number message send now).1.status = 503
    ∧ (sendOtpHandler false number message send now).1.body = .notConnected
    ∧ (sendOtpHandler false number message send now).2 = none := by
  simp [sendOtpHandler, hn, hm]

/-- C5 witness: a fully valid body while disconnected. -/
theorem c5_no_connection_503_witness :
    (sendOtpHandler false (.str "15551234567") (.str "otp") .resolves
      "T").1.status = 503 :=
  (c5_no_connection_503 (.str "15551234567") (.str "otp") .resolves "T"
    (by decide) (by decide)).1

/-- C7: when the send operation resolves, the response has status 200 with
`ok` true, `to` equal to the digits-only normalization of the input number,
and a timestamp. -/
theorem c7_success_response (n m : String) (hn : n ≠ "") (hm : m ≠ "")
    (now : String) :
    (sendOtpHandler true (.str n) (.str m) .resolves now).1.status = 200
    ∧ ((sendOtpHandler true (.str n) (.str m) .resolves now).1.body).okField
        = some true
    ∧ ((sendOtpHandler true (.str n) (.str m) .resolves now).1.body).toField
        = some (stripNonDigits n)
    ∧ ((sendOtpHandler true (.str n) (.str m) .resolves
        now).1.body).timestampField = some now := by
  simp [sendOtpHandler, truthy, hn, hm, replaceNonDigits, RBody.okField,
        RBody.toField, RBody.timestampField]

/-- C7 witness at a concrete request. -/
theorem c7_success_response_witness :
    (sendOtpHandler true (.str "+1 (555) 123-4567") (.str "otp") .resolves
      "T").1.status = 200
    ∧ ((sendOtpHandler true (.str "+1 (555) 123-4567") (.str "otp") .resolves
      "T").1.body).toField = some "15551234567" :=
  ⟨(c7_success_response "+1 (555) 123-4567" "otp" (by decide) (by decide)
      "T").1,
   by
    have h := (c7_success_response "+1 (555) 123-4567" "otp" (by decide)
      (by decide) "T").2.2.1
    rw [h]; decide⟩

/-- C10: when the number field is truthy but not a string (e.g. a JSON
number), the digit-stripping step throws a TypeError, the generic catch
classifies its message as 500 (it matches none of the known substrings), the
thrown text is echoed in `details`, and no send is attempted. -/
theorem c10_nonstring_number (number message : JSVal) (send : SendOutcome)
    (now : String) (htr : truthy number = true) (hns : ∀ s, number ≠ .str s)
    (hm : truthy message = true) :
    (sendOtpHandler true number message send now).1.status = 500
    ∧ ((sendOtpHandler true number message send now).1.body).detailsField
        = some "number.replace is not a function"
    ∧ (sendOtpHandler true number message send now).2 = none := by
  cases number with
  | str s => exact absurd rfl (hns s)
  | absent => simp [truthy] at htr
  | null => simp [truthy] at htr
  | num n =>
      simp [sendOtpHandler, htr, hm, replaceNonDigits, classify_replace_error,
            RBody.detailsField]
  | jbool b =>
      simp [sendOtpHandler, htr, hm, replaceNonDigits, classify_replace_error,
            RBody.detailsField]
  | arr =>
      simp [sendOtpHandler, htr, hm, replaceNonDigits, classify_replace_error,
            RBody.detailsField]
  | obj =>
      simp [sendOtpHandler, htr, hm, replaceNonDigits, classify_replace_error,
            RBody.detailsField]

/-- C10 witness: the number field is the JSON number 5. -/
theorem c10_nonstring_number_witness :
    (sendOtpHandler true (.num 5) (.str "otp") .resolves "T").1.status = 500 :=
  (c10_nonstring_number (.num 5) (.str "otp") .resolves "T" (by decide)
    (fun s h => JSVal.noConfusion h) (by decide)).1

/-- C1 counterexample: after start, open, then a close signal, the manager is
in the reconnect window (one pending 5000 ms timer) yet the published handle
is still set (`sockSet = true`, the close handler did not clear it); a valid
send request in that window is answered 200 — not 503 — and a send IS
attempted on the stale handle. -/
theorem c1_counterexample :
    Reachable ⟨[5000], 0, true⟩
    ∧ (sendOtpHandler true (.str "15551234567") (.str "otp") .resolves
        "T").1.status = 200
    ∧ (sendOtpHandler true (.str "15551234567") (.str "otp") .resolves
        "T").1.status ≠ 503
    ∧ ((sendOtpHandler true (.str "15551234567") (.str "otp") .resolves
        "T").2).isSome = true := by
  refine ⟨⟨[.timerOk, .connOpen, .connClose], ?_⟩, by decide, by decide,
    by decide⟩
  exact Trace.cons _ _ _ _ _ (WAStep.timerOk 1000 [] 0 false)
    (Trace.cons _ _ _ _ _ (WAStep.connOpen [] 0 false)
      (Trace.cons _ _ _ _ _ (WAStep.connClose [] 0 true) (Trace.nil _)))

/-- C1 amended: on a connection-close signal the handler only schedules the
reconnect; it never clears the published handle. Consequently a send request
arriving while reconnecting after a close still sees the stale handle: it is
not answered 503, and the send is attempted on the stale handle. (The 503
response occurs only when no handle was ever published.) -/
theorem c1_stale_handle :
    (∀ pend live sock,
        WAStep ⟨pend, live + 1, sock⟩ .connClose ⟨pend ++ [5000], live, sock⟩)
    ∧ (∀ s t, WAStep s .connClose t → t.sockSet = s.sockSet)
    ∧ (∀ (n m : String) (send : SendOutcome) (now : String), n ≠ "" → m ≠ "" →
        (sendOtpHandler true (.str n) (.str m) send now).1.status ≠ 503
        ∧ ((sendOtpHandler true (.str n) (.str m) send now).2).isSome
            = true) := by
  refine ⟨fun pend live sock => WAStep.connClose pend live sock, ?_, ?_⟩
  · intro s t h
    cases h with
    | connClose pend live sock => rfl
  · intro n m send now hn hm
    cases send with
    | resolves =>
        constructor <;>
          simp [sendOtpHandler, truthy, hn, hm, replaceNonDigits]
    | rejects msg =>
        constructor
        · have h1 : (sendOtpHandler true (.str n) (.str m) (.rejects msg)
              now).1.status = (classifyError msg).1 := by
            simp [sendOtpHandler, truthy, hn, hm, replaceNonDigits]
          rw [h1]
          unfold classifyError
          split
          · simp
          · split <;> simp
        · simp [sendOtpHandler, truthy, hn, hm, replaceNonDigits]

/-- C1 amended witness: a close step from a live-connection state keeps the
handle, and a concrete request on the stale handle is not 503 and attempts
the send. -/
theorem c1_stale_handle_witness :
    (WAState.mk ([] ++ [5000]) 0 true).sockSet = (WAState.mk [] 1 true).sockSet
    ∧ ((sendOtpHandler true (.str "15551234567") (.str "otp") .resolves
        "T").1.status ≠ 503
       ∧ ((sendOtpHandler true (.str "15551234567") (.str "otp") .resolves
        "T").2).isSome = true) :=
  ⟨c1_stale_handle.2.1 ⟨[], 0 + 1, true⟩ ⟨[] ++ [5000], 0, true⟩
      (c1_stale_handle.1 [] 0 true),
   c1_stale_handle.2.2 "15551234567" "otp" .resolves "T" (by decide)
     (by decide)⟩

/-- C2 counterexample: the code matches the capitalized substring
"Not authorized", so an error whose message contains the claim's lowercase
"not authorized" is NOT classified 401 — it falls through to 500. -/
theorem c2_counterexample :
    (sendOtpHandler true (.str "15551234567") (.str "otp")
      (.rejects "user is not authorized") "T").1.status = 500
    ∧ (sendOtpHandler true (.str "15551234567") (.str "otp")
      (.rejects "user is not authorized") "T").1.status ≠ 401 := by
  constructor <;> decide

/-- C2 amended: the status of the error response is determined by substring
inspection of the thrown message: containing "Not authorized" (capital N)
gives 401, else containing "not registered" or "invalid" gives 400, anything
else gives 500. -/
theorem c2_error_classification (n m msg now : String) (hn : n ≠ "")
    (hm : m ≠ "") :
    (sendOtpHandler true (.str n) (.str m) (.rejects msg) now).1.status =
      (if strIncludes msg "Not authorized" then 401
       else if strIncludes msg "not registered" || strIncludes msg "invalid"
         then 400
       else 500) := by
  have h1 : (sendOtpHandler true (.str n) (.str m) (.rejects msg)
      now).1.status = (classifyError msg).1 := by
    simp [sendOtpHandler, truthy, hn, hm, replaceNonDigits]
  rw [h1]
  unfold classifyError
  split
  · rfl
  · split <;> rfl

/-- C2 amended witness: a message containing the capitalized substring is
classified 401. -/
theorem c2_error_classification_witness :
    (sendOtpHandler true (.str "15551234567") (.str "otp")
      (.rejects "Not authorized") "T").1.status =
      (if strIncludes "Not authorized" "Not authorized" then 401
       else if strIncludes "Not authorized" "not registered"
          || strIncludes "Not authorized" "invalid" then 400
       else 500) :=
  c2_error_classification "15551234567" "otp" "Not authorized" "T"
    (by decide) (by decide)

/-- C6 counterexample: for a thrown "Not authorized" error the `details`
field carries the fixed replacement text, not the original error text. -/
theorem c6_counterexample :
    ((sendOtpHandler true (.str "15551234567") (.str "otp")
      (.rejects "Not authorized") "T").1.body).detailsField
      = some "WhatsApp not authenticated. Please scan QR code."
    ∧ ((sendOtpHandler true (.str "15551234567") (.str "otp")
      (.rejects "Not authorized") "T").1.body).detailsField
      ≠ some "Not authorized" := by
  constructor <;> decide

/-- C6 amended: the `details` field of the error response carries the
original thrown text only for unclassified (500) errors; a message matching
"Not authorized" gets the fixed authentication text, and one matching
"not registered" or "invalid" gets the fixed invalid-number text. -/
theorem c6_details_field (n m msg now : String) (hn : n ≠ "") (hm : m ≠ "") :
    ((sendOtpHandler true (.str n) (.str m) (.rejects msg)
      now).1.body).detailsField =
      some (if strIncludes msg "Not authorized" then
              "WhatsApp not authenticated. Please scan QR code."
            else if strIncludes msg "not registered"
                || strIncludes msg "invalid" then
              "Invalid phone number or number not registered on WhatsApp"
            else msg) := by
  have h1 : ((sendOtpHandler true (.str n) (.str m) (.rejects msg)
      now).1.body).detailsField = some (classifyError msg).2 := by
    simp [sendOtpHandler, truthy, hn, hm, replaceNonDigits, RBody.detailsField]
  rw [h1]
  unfold classifyError
  split
  · rfl
  · split <;> rfl

/-- C6 amended witness: an unclassified error message is echoed verbatim in
`details`. -/
theorem c6_details_field_witness :
    ((sendOtpHandler true (.str "15551234567") (.str "otp")
      (.rejects "boom") "T").1.body).detailsField =
      some (if strIncludes "boom" "Not authorized" then
              "WhatsApp not authenticated. Please scan QR code."
            else if strIncludes "boom" "not registered"
                || strIncludes "boom" "invalid" then
              "Invalid phone number or number not registered on WhatsApp"
            else "boom") :=
  c6_details_field "15551234567" "otp" "boom" "T" (by decide) (by decide)

/-- C8: the health check always returns 200 with the fixed-shape body
`{status, service, whatsapp, timestamp}`; along any run of the connection
manager from process start, the `whatsapp` field is "connecting" as long as
no open signal has occurred and "connected" once one has. -/
theorem c8_health_check (sock : Bool) (now : String) (tr : List WAEvent)
    (s : WAState) (h : Trace initState tr s) :
    (healthHandler sock now).1 = 200
    ∧ (healthHandler sock now).2.status = "online"
    ∧ (healthHandler sock now).2.service = "XPROVerce WhatsApp OTP Server"
    ∧ (healthHandler sock now).2.timestamp = now
    ∧ (WAEvent.connOpen ∉ tr →
        (healthHandler s.sockSet now).2.whatsapp = "connecting")
    ∧ (WAEvent.connOpen ∈ tr →
        (healthHandler s.sockSet now).2.whatsapp = "connected") := by
  refine ⟨rfl, rfl, rfl, rfl, ?_, ?_⟩
  · intro hno
    have hs : s.sockSet = false := trace_no_open_sock h hno
    simp [healthHandler, hs]
  · intro hin
    have hs : s.sockSet = true := trace_open_sock h hin
    simp [healthHandler, hs]

/-- C8 witness: the empty run (before any connection event) reports
"connecting". -/
theorem c8_health_check_witness :
    (healthHandler initState.sockSet "T").2.whatsapp = "connecting" :=
  ((c8_health_check false "T" [] initState (Trace.nil initState)).2.2.2.2.1)
    (by decide)

/-- C9: in every reachable state of the connection manager at most one
reconnect attempt is pending; from a state with a live connection, the close
signal schedules exactly one reconnect timer with the fixed 5000 ms delay;
from a state with a pending timer, a failing connect attempt leaves exactly
one retry timer with the fixed 10000 ms delay; and no reachable state is
stuck, so retries continue indefinitely. -/
theorem c9_reconnect_scheduling (s : WAState) (h : Reachable s) :
    s.pending.length ≤ 1
    ∧ (1 ≤ s.liveConns → s.pending = []
        ∧ WAStep s .connClose ⟨[5000], s.liveConns - 1, s.sockSet⟩)
    ∧ (∀ d rest, s.pending = d :: rest → rest = [] ∧ s.liveConns = 0
        ∧ WAStep s .timerErr ⟨[10000], s.liveConns, s.sockSet⟩)
    ∧ (∃ e t, WAStep s e t) := by
  have hu := reachable_units h
  obtain ⟨pend, live, sock⟩ := s
  simp only at hu ⊢
  refine ⟨by omega, ?_, ?_, ?_⟩
  · intro hl
    have hp : pend = [] := by
      have : pend.length = 0 := by omega
      exact List.length_eq_zero.mp this
    subst hp
    cases live with
    | zero => omega
    | succ l =>
        refine ⟨rfl, ?_⟩
        simpa using WAStep.connClose [] l sock
  · intro d rest heq
    subst heq
    have hr : rest = [] := by
      have : rest.length = 0 := by simp at hu; omega
      exact List.length_eq_zero.mp this
    have hl : live = 0 := by simp [hr] at hu; omega
    subst hr; subst hl
    exact ⟨rfl, rfl, by simpa using WAStep.timerErr d [] 0 sock⟩
  · cases pend with
    | cons d rest => exact ⟨.timerOk, _, WAStep.timerOk d rest live sock⟩
    | nil =>
        cases live with
        | zero => simp at hu
        | succ l => exact ⟨.connClose, _, WAStep.connClose [] l sock⟩

/-- C9 witness at the initial state (one pending startup timer). -/
theorem c9_reconnect_scheduling_witness :
    initState.pending.length ≤ 1 ∧ (∃ e t, WAStep initState e t) :=
  ⟨(c9_reconnect_scheduling initState ⟨[], Trace.nil initState⟩).1,
   (c9_reconnect_scheduling initState ⟨[], Trace.nil initState⟩).2.2.2⟩
